import Mathlib

/-!
Shallow embedding of the hpc_drive item store (src/hpc_drive/models.py,
crud.py, api/v1/router_signing.py, api/v1/router_department_storage.py).

Database tables are modelled as Lean lists of structures; each CRUD
function becomes a pure function returning `Except ApiErr result`, where
`.error` corresponds to raising `HTTPException` (the enclosing transaction
is rolled back, so an error leaves every table unchanged) and `.ok`
carries the updated table(s) together with the value the endpoint returns.
UUIDs are modelled as `Nat`, user ids as `Int`, timestamps as `Nat`
(a `now` parameter stands for `datetime.utcnow()` / `func.now()`).
-/

deriving instance DecidableEq for Except

namespace HpcDrive

/-- models.py `UserRole`. -/
inductive UserRole where
  | ADMIN
  | TEACHER
  | STUDENT
deriving DecidableEq, Repr

/-- models.py `ItemType`. -/
inductive ItemType where
  | FILE
  | FOLDER
deriving DecidableEq, Repr

/-- models.py `Permission` (item visibility). -/
inductive Permission where
  | PRIVATE
  | SHARED
deriving DecidableEq, Repr

/-- models.py `ShareLevel`. -/
inductive ShareLevel where
  | VIEWER
  | EDITOR
deriving DecidableEq, Repr

/-- models.py `RepositoryType`. -/
inductive RepositoryType where
  | PERSONAL
  | CLASS
  | DEPARTMENT
deriving DecidableEq, Repr

/-- models.py `OwnerType`. -/
inductive OwnerType where
  | STUDENT
  | LECTURER
  | ADMIN
deriving DecidableEq, Repr

/-- models.py `ProcessStatus` (malware-scan lifecycle). -/
inductive ProcessStatus where
  | PENDING_UPLOAD
  | SCANNING
  | READY
  | INFECTED
  | ERROR
deriving DecidableEq, Repr

/-- models.py `SigningStatus`. -/
inductive SigningStatus where
  | DRAFT
  | PENDING
  | APPROVED
  | REJECTED
deriving DecidableEq, Repr

/-- Outcome of raising an error from an endpoint: either a FastAPI
`HTTPException(status_code)` or an uncaught Python `AttributeError`
(which FastAPI surfaces as a 500 Internal Server Error). -/
inductive ApiErr where
  | http (status : Nat)
  | attributeError
deriving DecidableEq, Repr

/-- models.py `User` row (local cache of the auth-service user). -/
structure User where
  user_id : Int
  username : String
  email : String
  role : UserRole
deriving DecidableEq, Repr

/-- models.py `DriveItem` row. All columns are carried so that
"leaves every field unchanged" claims are meaningful. -/
structure DriveItem where
  item_id : Nat
  name : String
  item_type : ItemType
  is_trashed : Bool
  trashed_at : Option Nat
  permission : Permission
  created_at : Nat
  updated_at : Option Nat
  repository_type : RepositoryType
  repository_context_id : Option Int
  owner_type : OwnerType
  process_status : ProcessStatus
  is_system_generated : Bool
  is_locked : Bool
  owner_id : Int
  parent_id : Option Nat
deriving DecidableEq, Repr

/-- models.py `FileMetadata` row (1:1 with a FILE DriveItem). -/
structure FileMetadata where
  item_id : Nat
  mime_type : String
  size : Nat
  storage_path : String
  version : Nat
  created_at : Nat
deriving DecidableEq, Repr

/-- models.py `SharePermission` row. -/
structure SharePermission where
  share_id : Nat
  permission_level : ShareLevel
  created_at : Nat
  item_id : Nat
  shared_with_user_id : Int
deriving DecidableEq, Repr

/-- models.py `SigningRequest` row. -/
structure SigningRequest where
  request_id : Nat
  current_status : SigningStatus
  admin_comment : Option String
  signed_file_path : Option String
  created_at : Nat
  updated_at : Option Nat
  approved_at : Option Nat
  drive_item_id : Nat
  requester_id : Int
  approver_id : Option Int
deriving DecidableEq, Repr

/-- schemas.py `DriveItemCreate`. -/
structure DriveItemCreate where
  name : String
  item_type : ItemType
  parent_id : Option Nat
deriving DecidableEq, Repr

/-- schemas.py `DriveItemUpdate`: both fields optional; `none` means the
field was absent from the PATCH body (there is no way to send an explicit
null that differs from absence). -/
structure DriveItemUpdate where
  name : Option String
  parent_id : Option Nat
deriving DecidableEq, Repr

/-- schemas.py `ShareCreate`. -/
structure ShareCreate where
  username : String
deriving DecidableEq, Repr

/-- crud.py `get_owner_type`. -/
def get_owner_type (role : UserRole) : OwnerType :=
  if role = UserRole.ADMIN then OwnerType.ADMIN
  else if role = UserRole.TEACHER then OwnerType.LECTURER
  else OwnerType.STUDENT

/-- The database-level unique constraint `uq_owner_parent_name` =
UniqueConstraint("owner_id", "parent_id", "name") (models.py), under the
SQL semantics of the SQLite engine used by database.py: two NULLs are
distinct in a unique constraint, so a row whose `parent_id` is NULL never
conflicts with any other row.  `true` means inserting a row with these
coordinates raises `IntegrityError`. -/
def violates_uq_owner_parent_name (db : List DriveItem) (owner_id : Int)
    (parent_id : Option Nat) (name : String) : Bool :=
  match parent_id with
  | none => false
  | some p => db.any (fun r =>
      r.owner_id == owner_id && r.parent_id == some p && r.name == name)

/-- crud.py `create_drive_item`: insert a new item; `IntegrityError`
(the unique constraint) is caught and re-raised as 409 Conflict.
`newId` models the generated `item_id`, `now` the creation timestamp. -/
def create_drive_item (db : List DriveItem) (item : DriveItemCreate)
    (owner : User) (newId now : Nat) :
    Except ApiErr (List DriveItem × DriveItem) :=
  let owner_type := get_owner_type owner.role
  let db_item : DriveItem :=
    { item_id := newId
      name := item.name
      item_type := item.item_type
      is_trashed := false
      trashed_at := none
      permission := Permission.PRIVATE
      created_at := now
      updated_at := none
      repository_type := RepositoryType.PERSONAL
      repository_context_id := none
      owner_type := owner_type
      process_status := ProcessStatus.PENDING_UPLOAD
      is_system_generated := false
      is_locked := false
      owner_id := owner.user_id
      parent_id := item.parent_id }
  if violates_uq_owner_parent_name db owner.user_id item.parent_id item.name then
    Except.error (ApiErr.http 409)
  else
    Except.ok (db ++ [db_item], db_item)

/-- crud.py `get_user_items_in_folder`: non-trashed items of one owner
under one parent, ordered by `item_type, name`.  The SAEnum column stores
the enum value string, so ORDER BY compares "FILE" < "FOLDER". -/
def itemTypeStr : ItemType → String
  | ItemType.FILE => "FILE"
  | ItemType.FOLDER => "FOLDER"

/-- The ORDER BY (item_type, name) comparison of
`get_user_items_in_folder`. -/
def item_order_le (a b : DriveItem) : Bool :=
  itemTypeStr a.item_type < itemTypeStr b.item_type ||
    (itemTypeStr a.item_type == itemTypeStr b.item_type && a.name ≤ b.name)

def get_user_items_in_folder (db : List DriveItem) (owner_id : Int)
    (parent_id : Option Nat) : List DriveItem :=
  (db.filter (fun r =>
      r.owner_id == owner_id && r.parent_id == parent_id && !r.is_trashed)
    ).mergeSort item_order_le

/-- crud.py `create_file_with_metadata`: one transaction inserting the
DriveItem (type FILE) and its FileMetadata; any `IntegrityError` rolls
both back and re-raises as 409.  The DriveItem constructor is called
without `process_status`, so the column default `PENDING_UPLOAD`
(models.py) applies.  `IntegrityError` can arise from
`uq_owner_parent_name` (SQLite NULL-distinct semantics, as above) or from
the unique `storage_path` column; collisions of the freshly generated
uuid primary key are not modelled. -/
def create_file_with_metadata (db : List DriveItem) (meta : List FileMetadata)
    (owner : User) (filename : String) (parent_id : Option Nat)
    (mime_type : String) (size : Nat) (storage_path : String) (newId now : Nat) :
    Except ApiErr (List DriveItem × List FileMetadata × DriveItem) :=
  let owner_type := get_owner_type owner.role
  let db_item : DriveItem :=
    { item_id := newId
      name := filename
      item_type := ItemType.FILE
      is_trashed := false
      trashed_at := none
      permission := Permission.PRIVATE
      created_at := now
      updated_at := none
      repository_type := RepositoryType.PERSONAL
      repository_context_id := none
      owner_type := owner_type
      process_status := ProcessStatus.PENDING_UPLOAD
      is_system_generated := false
      is_locked := false
      owner_id := owner.user_id
      parent_id := parent_id }
  if violates_uq_owner_parent_name db owner.user_id parent_id filename
      || meta.any (fun m => m.storage_path == storage_path) then
    Except.error (ApiErr.http 409)
  else
    let db_metadata : FileMetadata :=
      { item_id := newId
        mime_type := mime_type
        size := size
        storage_path := storage_path
        version := 1
        created_at := now }
    Except.ok (db ++ [db_item], meta ++ [db_metadata], db_item)

/-- crud.py `get_item_for_owner`: first row matching (item_id, owner_id),
404 otherwise. -/
def get_item_for_owner (db : List DriveItem) (item_id : Nat) (owner_id : Int) :
    Except ApiErr DriveItem :=
  match db.find? (fun r => r.item_id == item_id && r.owner_id == owner_id) with
  | some r => Except.ok r
  | none => Except.error (ApiErr.http 404)

/-- The UPDATE statement emitted at commit for a mutated ORM row: every
row whose `item_id` matches is replaced by the updated row. -/
def commit_item_update (db : List DriveItem) (tid : Nat) (updated : DriveItem) :
    List DriveItem :=
  db.map (fun r => if r.item_id == tid then updated else r)

/-- crud.py `trash_item`.  The commit issues an UPDATE on the row, so the
`updated_at` column — declared with `onupdate=func.now()` in models.py —
is refreshed to `now` alongside the two explicitly-set fields. -/
def trash_item (db : List DriveItem) (item_id : Nat) (owner_id : Int)
    (now : Nat) : Except ApiErr (List DriveItem × DriveItem) :=
  match get_item_for_owner db item_id owner_id with
  | Except.error e => Except.error e
  | Except.ok db_item =>
    if db_item.is_trashed then Except.error (ApiErr.http 400)
    else
      let updated := { db_item with
        is_trashed := true, trashed_at := some now, updated_at := some now }
      Except.ok (commit_item_update db item_id updated, updated)

/-- crud.py `restore_item` (same `onupdate` refresh of `updated_at`). -/
def restore_item (db : List DriveItem) (item_id : Nat) (owner_id : Int)
    (now : Nat) : Except ApiErr (List DriveItem × DriveItem) :=
  match get_item_for_owner db item_id owner_id with
  | Except.error e => Except.error e
  | Except.ok db_item =>
    if !db_item.is_trashed then Except.error (ApiErr.http 400)
    else
      let updated := { db_item with
        is_trashed := false, trashed_at := none, updated_at := some now }
      Except.ok (commit_item_update db item_id updated, updated)

/-- crud.py `check_for_name_conflict`: explicit pre-commit query.  The
SQLAlchemy filter `DriveItem.parent_id == parent_id` renders `IS NULL`
when the Python value is None, so — unlike the database constraint — this
check also matches rows at the root; it is exactly `Option` equality. -/
def check_for_name_conflict (db : List DriveItem) (owner_id : Int)
    (parent_id : Option Nat) (name : String) (exclude_item_id : Option Nat) :
    Except ApiErr Unit :=
  let rows := db.filter (fun r =>
    r.owner_id == owner_id && r.parent_id == parent_id && r.name == name)
  let rows₂ := match exclude_item_id with
    | some e => rows.filter (fun (r : DriveItem) => !(r.item_id == e))
    | none => rows
  if rows₂.isEmpty then Except.ok () else Except.error (ApiErr.http 409)

/-- crud.py `update_drive_item` (rename / move).  After the explicit
`check_for_name_conflict` (which is strictly stronger than the database
constraint, since it also sees NULL-parent rows), the `IntegrityError`
handler around the commit is unreachable, so it is not modelled. -/
def update_drive_item (db : List DriveItem) (item_id : Nat) (owner_id : Int)
    (update_data : DriveItemUpdate) (now : Nat) :
    Except ApiErr (List DriveItem × DriveItem) :=
  match get_item_for_owner db item_id owner_id with
  | Except.error e => Except.error e
  | Except.ok db_item =>
    if update_data.name == none && update_data.parent_id == none then
      Except.ok (db, db_item)
    else
      let new_name := update_data.name.getD db_item.name
      let new_parent_id := update_data.parent_id.or db_item.parent_id
      if new_name == db_item.name && new_parent_id == db_item.parent_id then
        Except.ok (db, db_item)
      else
        match check_for_name_conflict db owner_id new_parent_id new_name
            (some item_id) with
        | Except.error e => Except.error e
        | Except.ok _ =>
          -- the source assigns each field only when it was provided; the
          -- effective value is new_name / new_parent_id in either case
          let updated := { db_item with
            name := new_name
            parent_id := new_parent_id
            updated_at := some now }
          Except.ok (commit_item_update db item_id updated, updated)

/-- crud.py `get_user_by_username`. -/
def get_user_by_username (users : List User) (username : String) : Option User :=
  users.find? (fun u => u.username == username)

/-- crud.py `share_item`.  The success path mutates the item row
(`permission := SHARED`), so the commit issues an UPDATE refreshing
`updated_at` via `onupdate`. -/
def share_item (users : List User) (db : List DriveItem)
    (shares : List SharePermission) (item_id : Nat) (owner_id : Int)
    (share_data : ShareCreate) (newShareId now : Nat) :
    Except ApiErr (List DriveItem × List SharePermission × SharePermission) :=
  match get_item_for_owner db item_id owner_id with
  | Except.error e => Except.error e
  | Except.ok db_item =>
    match get_user_by_username users share_data.username with
    | none => Except.error (ApiErr.http 404)
    | some user_to_share_with =>
      if user_to_share_with.user_id == owner_id then
        Except.error (ApiErr.http 400)
      else if shares.any (fun s =>
          s.item_id == item_id &&
          s.shared_with_user_id == user_to_share_with.user_id) then
        Except.error (ApiErr.http 409)
      else
        let db_share : SharePermission :=
          { share_id := newShareId
            permission_level := ShareLevel.VIEWER
            created_at := now
            item_id := item_id
            shared_with_user_id := user_to_share_with.user_id }
        let updated := { db_item with
          permission := Permission.SHARED, updated_at := some now }
        Except.ok (commit_item_update db item_id updated,
          shares ++ [db_share], db_share)

/-- crud.py `get_trashed_item_for_owner`. -/
def get_trashed_item_for_owner (db : List DriveItem) (item_id : Nat)
    (owner_id : Int) : Except ApiErr DriveItem :=
  match db.find? (fun r =>
      r.item_id == item_id && r.owner_id == owner_id && r.is_trashed) with
  | some r => Except.ok r
  | none => Except.error (ApiErr.http 404)

def children_of (db : List DriveItem) (pid : Nat) : List DriveItem :=
  db.filter (fun r => r.parent_id == some pid)

/-- Ids of the subtree reachable from the queue, breadth-first — the
queue walk of crud.py `delete_item_permanently`; deleting the root row
removes exactly these rows via the "all, delete-orphan" cascade on
`children`.  `fuel` bounds the loop (any value that exceeds the number of
queue pops on the given table gives the full answer). -/
def subtree_ids (db : List DriveItem) : Nat → List Nat → List Nat
  | 0, _ => []
  | _, [] => []
  | Nat.succ f, q :: qs =>
      q :: subtree_ids db f (qs ++ (children_of db q).map (fun r => r.item_id))

/-- crud.py `delete_item_permanently` (owner variant): the item must be
in the caller's trash; deleting the row cascades to all descendant rows
(and to their metadata and share rows).  Deleting the on-disk payloads is
an external side effect, not modelled. -/
def delete_item_permanently (db : List DriveItem) (item_id : Nat)
    (owner_id : Int) : Except ApiErr (List DriveItem) :=
  match get_trashed_item_for_owner db item_id owner_id with
  | Except.error e => Except.error e
  | Except.ok _db_item =>
    let doomed := subtree_ids db ((db.length + 1) * (db.length + 1)) [item_id]
    Except.ok (db.filter (fun r => !(doomed.contains r.item_id)))

/-- router_signing.py `create_signing_request`.  Note the duplicate-open-
request guard raises `HTTPException(status_code=400, ...)`, not 409. -/
def create_signing_request (requests : List SigningRequest)
    (items : List DriveItem) (meta : List FileMetadata) (current_user : User)
    (drive_item_id : Nat) (approver_id : Option Int) (newId now : Nat) :
    Except ApiErr (List SigningRequest × SigningRequest) :=
  if !(current_user.role == UserRole.TEACHER
        || current_user.role == UserRole.ADMIN) then
    Except.error (ApiErr.http 403)
  else
    match items.find? (fun r => r.item_id == drive_item_id) with
    | none => Except.error (ApiErr.http 404)
    | some drive_item =>
      if !(current_user.role == UserRole.ADMIN)
          && !(drive_item.owner_id == current_user.user_id) then
        Except.error (ApiErr.http 403)
      else if !(drive_item.item_type == ItemType.FILE) then
        Except.error (ApiErr.http 400)
      else if meta.any (fun m => m.item_id == drive_item_id)
          && !(drive_item.name.toLower.endsWith ".pdf") then
        Except.error (ApiErr.http 400)
      else if requests.any (fun r => r.drive_item_id == drive_item_id
          && (r.current_status == SigningStatus.DRAFT
              || r.current_status == SigningStatus.PENDING)) then
        Except.error (ApiErr.http 400)
      else
        let signing_request : SigningRequest :=
          { request_id := newId
            current_status := SigningStatus.DRAFT
            admin_comment := none
            signed_file_path := none
            created_at := now
            updated_at := none
            approved_at := none
            drive_item_id := drive_item_id
            requester_id := current_user.user_id
            approver_id := approver_id }
        Except.ok (requests ++ [signing_request], signing_request)

/-- The UPDATE emitted at commit for a mutated SigningRequest row. -/
def commit_request_update (requests : List SigningRequest) (rid : Nat)
    (updated : SigningRequest) : List SigningRequest :=
  requests.map (fun r => if r.request_id == rid then updated else r)

/-- router_signing.py `submit_signing_request` (DRAFT → PENDING).  The
signing_requests table also declares `updated_at` with `onupdate`. -/
def submit_signing_request (requests : List SigningRequest) (request_id : Nat)
    (current_user : User) (now : Nat) :
    Except ApiErr (List SigningRequest × SigningRequest) :=
  match requests.find? (fun r => r.request_id == request_id) with
  | none => Except.error (ApiErr.http 404)
  | some request =>
    if !(request.requester_id == current_user.user_id)
        && !(current_user.role == UserRole.ADMIN) then
      Except.error (ApiErr.http 403)
    else if !(request.current_status == SigningStatus.DRAFT) then
      Except.error (ApiErr.http 400)
    else
      let updated := { request with
        current_status := SigningStatus.PENDING, updated_at := some now }
      Except.ok (commit_request_update requests request_id updated, updated)

/-- router_signing.py `approve_signing_request` (PENDING → APPROVED).
The leading admin check models the `get_current_admin_user` dependency
(403 for non-admins).  The post-commit notification is best-effort and
not modelled. -/
def approve_signing_request (requests : List SigningRequest)
    (request_id : Nat) (current_user : User) (admin_comment : Option String)
    (now : Nat) : Except ApiErr (List SigningRequest × SigningRequest) :=
  if !(current_user.role == UserRole.ADMIN) then
    Except.error (ApiErr.http 403)
  else
    match requests.find? (fun r => r.request_id == request_id) with
    | none => Except.error (ApiErr.http 404)
    | some request =>
      if !(request.current_status == SigningStatus.PENDING) then
        Except.error (ApiErr.http 400)
      else
        let updated := { request with
          current_status := SigningStatus.APPROVED
          approver_id := some current_user.user_id
          approved_at := some now
          admin_comment := admin_comment
          updated_at := some now }
        Except.ok (commit_request_update requests request_id updated, updated)

/-- router_signing.py `reject_signing_request` (PENDING → REJECTED);
`approved_at` is not set on this path. -/
def reject_signing_request (requests : List SigningRequest)
    (request_id : Nat) (current_user : User) (admin_comment : Option String)
    (now : Nat) : Except ApiErr (List SigningRequest × SigningRequest) :=
  if !(current_user.role == UserRole.ADMIN) then
    Except.error (ApiErr.http 403)
  else
    match requests.find? (fun r => r.request_id == request_id) with
    | none => Except.error (ApiErr.http 404)
    | some request =>
      if !(request.current_status == SigningStatus.PENDING) then
        Except.error (ApiErr.http 400)
      else
        let updated := { request with
          current_status := SigningStatus.REJECTED
          approver_id := some current_user.user_id
          admin_comment := admin_comment
          updated_at := some now }
        Except.ok (commit_request_update requests request_id updated, updated)

/-- schemas.py `AuthAccount`. -/
structure AuthAccount where
  username : String
  is_admin : Bool
deriving DecidableEq, Repr

/-- schemas.py `StudentInfo`. -/
structure StudentInfo where
  student_code : String
deriving DecidableEq, Repr

/-- schemas.py `LecturerInfo`: the parsed identity assertion declares
only `lecturer_code` — it has NO `department_id` field. -/
structure LecturerInfo where
  lecturer_code : String
deriving DecidableEq, Repr

/-- schemas.py `UserDataFromAuth`. -/
structure UserDataFromAuth where
  id : Int
  full_name : String
  email : String
  user_type : String
  account : AuthAccount
  student_info : Option StudentInfo
  lecturer_info : Option LecturerInfo
deriving DecidableEq, Repr

/-- router_department_storage.py `check_department_permission`.  For a
TEACHER whose `lecturer_info` is present, the source reads
`user_data.lecturer_info.department_id`; the `LecturerInfo` schema
(schemas.py) declares no such attribute (and the pydantic model ignores
extra response fields), so that line raises `AttributeError`, surfaced by
the framework as a 500 — modelled as `ApiErr.attributeError`.  When
`lecturer_info` is absent, `lecturer_dept_id` stays None and the 400
branch fires. -/
def check_department_permission (user : User) (user_data : UserDataFromAuth)
    (department_id : Int) (_require_upload : Bool) : Except ApiErr Bool :=
  if user.role == UserRole.ADMIN then Except.ok true
  else if user.role == UserRole.STUDENT then Except.error (ApiErr.http 403)
  else if user.role == UserRole.TEACHER then
    match user_data.lecturer_info with
    | some _info => Except.error ApiErr.attributeError
    | none => Except.error (ApiErr.http 400)
  else Except.ok true

/-- Parent pointer of an item id in the table. -/
def parent_of (db : List DriveItem) (id : Nat) : Option Nat :=
  match db.find? (fun r => r.item_id == id) with
  | some r => r.parent_id
  | none => none

/-- The ancestor chain starting from a parent pointer, fuel-bounded. -/
def ancestor_ids (db : List DriveItem) : Nat → Option Nat → List Nat
  | 0, _ => []
  | _, none => []
  | Nat.succ f, some id => id :: ancestor_ids db f (parent_of db id)

/-- `anc` appears among the (fuel-bounded) ancestors of `target`. -/
def is_ancestor_of (db : List DriveItem) (anc target : Nat) : Bool :=
  (ancestor_ids db (db.length + 1) (parent_of db target)).contains anc

/-! Concrete rows and tables used by counterexamples and witnesses. -/

/-- Owner of the duplicate root items (claim C1). -/
def c1_owner : User :=
  ⟨1, "alice", "alice@example.com", UserRole.STUDENT⟩

/-- The creation request sent twice (claim C1). -/
def c1_create : DriveItemCreate :=
  ⟨"notes", ItemType.FILE, none⟩

def c1_itemA : DriveItem :=
  ⟨10, "notes", ItemType.FILE, false, none, Permission.PRIVATE, 0, none,
    RepositoryType.PERSONAL, none, OwnerType.STUDENT,
    ProcessStatus.PENDING_UPLOAD, false, false, 1, none⟩

def c1_itemB : DriveItem :=
  ⟨11, "notes", ItemType.FILE, false, none, Permission.PRIVATE, 1, none,
    RepositoryType.PERSONAL, none, OwnerType.STUDENT,
    ProcessStatus.PENDING_UPLOAD, false, false, 1, none⟩

def c1_db1 : List DriveItem := [c1_itemA]

/-- A TEACHER user (claim C3). -/
def c3_user : User := ⟨1, "teach", "teach@example.com", UserRole.TEACHER⟩

/-- A FILE item owned by the teacher (claim C3; it has no FileMetadata
row, so the PDF-name guard is skipped, as in the source where a falsy
`file_metadata` short-circuits the check). -/
def c3_file : DriveItem :=
  ⟨1, "doc", ItemType.FILE, false, none, Permission.PRIVATE, 0, none,
    RepositoryType.PERSONAL, none, OwnerType.LECTURER,
    ProcessStatus.PENDING_UPLOAD, false, false, 1, none⟩

/-- An open (DRAFT) signing request for that file (claim C3). -/
def c3_req : SigningRequest :=
  ⟨7, SigningStatus.DRAFT, none, none, 0, none, none, 1, 1, none⟩

/-- A locked, system-generated folder (claim C4). -/
def c4_item : DriveItem :=
  ⟨1, "Class_7_Root", ItemType.FOLDER, false, none, Permission.PRIVATE, 0,
    none, RepositoryType.CLASS, some 7, OwnerType.ADMIN,
    ProcessStatus.READY, true, true, 1, none⟩

/-- The same folder after its owner trashes it at time 5 (claim C4). -/
def c4_trashed : DriveItem :=
  ⟨1, "Class_7_Root", ItemType.FOLDER, true, some 5, Permission.PRIVATE, 0,
    some 5, RepositoryType.CLASS, some 7, OwnerType.ADMIN,
    ProcessStatus.READY, true, true, 1, none⟩

/-- The STUDENT uploader of claim C5. -/
def c5_owner : User := ⟨1, "alice", "alice@example.com", UserRole.STUDENT⟩

/-- The item produced by the personal upload of claim C5. -/
def c5_item : DriveItem :=
  ⟨10, "notes.pdf", ItemType.FILE, false, none, Permission.PRIVATE, 0, none,
    RepositoryType.PERSONAL, none, OwnerType.STUDENT,
    ProcessStatus.PENDING_UPLOAD, false, false, 1, none⟩

/-- Its metadata row (claim C5). -/
def c5_meta : FileMetadata := ⟨10, "application/pdf", 4, "1/10/notes.pdf", 1, 0⟩

/-- Callers of claim C6. -/
def c6_admin : User := ⟨1, "boss", "boss@example.com", UserRole.ADMIN⟩

def c6_teacher : User := ⟨2, "teach", "teach@example.com", UserRole.TEACHER⟩

def c6_student : User := ⟨3, "stud", "stud@example.com", UserRole.STUDENT⟩

/-- Identity assertion of a lecturer whose `lecturer_info` is present
(claim C6); per schemas.py it carries only a lecturer code. -/
def c6_data_with : UserDataFromAuth :=
  ⟨2, "Teach Er", "teach@example.com", "lecturer", ⟨"teach", false⟩, none,
    some ⟨"L01"⟩⟩

/-- Identity assertion with no `lecturer_info` (claim C6). -/
def c6_data_none : UserDataFromAuth :=
  ⟨2, "Teach Er", "teach@example.com", "lecturer", ⟨"teach", false⟩, none,
    none⟩

/-- Users of claim C7: alice owns the item, bob is the grantee. -/
def c7_alice : User := ⟨1, "alice", "alice@example.com", UserRole.STUDENT⟩

def c7_bob : User := ⟨2, "bob", "bob@example.com", UserRole.STUDENT⟩

def c7_users : List User := [c7_alice, c7_bob]

/-- The item alice shares (claim C7). -/
def c7_item : DriveItem :=
  ⟨1, "notes", ItemType.FILE, false, none, Permission.PRIVATE, 0, none,
    RepositoryType.PERSONAL, none, OwnerType.STUDENT,
    ProcessStatus.PENDING_UPLOAD, false, false, 1, none⟩

/-- The share row granted to bob (claim C7). -/
def c7_share : SharePermission := ⟨5, ShareLevel.VIEWER, 3, 1, 2⟩

/-- The item after its first successful share (claim C7). -/
def c7_item_shared : DriveItem :=
  ⟨1, "notes", ItemType.FILE, false, none, Permission.SHARED, 0, some 3,
    RepositoryType.PERSONAL, none, OwnerType.STUDENT,
    ProcessStatus.PENDING_UPLOAD, false, false, 1, none⟩

/-- A non-trashed item with `updated_at` NULL (claim C8). -/
def c8_item : DriveItem :=
  ⟨1, "report", ItemType.FILE, false, none, Permission.PRIVATE, 0, none,
    RepositoryType.PERSONAL, none, OwnerType.STUDENT,
    ProcessStatus.PENDING_UPLOAD, false, false, 1, none⟩

/-- The same item after trashing at time 1 (claim C8). -/
def c8_t : DriveItem :=
  ⟨1, "report", ItemType.FILE, true, some 1, Permission.PRIVATE, 0, some 1,
    RepositoryType.PERSONAL, none, OwnerType.STUDENT,
    ProcessStatus.PENDING_UPLOAD, false, false, 1, none⟩

/-- The same item after restoring at time 2 (claim C8). -/
def c8_r : DriveItem :=
  ⟨1, "report", ItemType.FILE, false, none, Permission.PRIVATE, 0, some 2,
    RepositoryType.PERSONAL, none, OwnerType.STUDENT,
    ProcessStatus.PENDING_UPLOAD, false, false, 1, none⟩

/-- Folder F at the root (claim C9). -/
def c9_F : DriveItem :=
  ⟨1, "F", ItemType.FOLDER, false, none, Permission.PRIVATE, 0, none,
    RepositoryType.PERSONAL, none, OwnerType.STUDENT,
    ProcessStatus.PENDING_UPLOAD, false, false, 1, none⟩

/-- Folder D, a strict descendant (direct child) of F (claim C9). -/
def c9_D : DriveItem :=
  ⟨2, "D", ItemType.FOLDER, false, none, Permission.PRIVATE, 0, none,
    RepositoryType.PERSONAL, none, OwnerType.STUDENT,
    ProcessStatus.PENDING_UPLOAD, false, false, 1, some 1⟩

def c9_db : List DriveItem := [c9_F, c9_D]

/-- F after being moved under its own descendant D (claim C9). -/
def c9_F2 : DriveItem :=
  ⟨1, "F", ItemType.FOLDER, false, none, Permission.PRIVATE, 0, some 5,
    RepositoryType.PERSONAL, none, OwnerType.STUDENT,
    ProcessStatus.PENDING_UPLOAD, false, false, 1, some 2⟩

def c9_db2 : List DriveItem := [c9_F2, c9_D]

/-- An item sitting inside folder 5 (claim C10). -/
def c10_item : DriveItem :=
  ⟨1, "memo", ItemType.FILE, false, none, Permission.PRIVATE, 0, none,
    RepositoryType.PERSONAL, none, OwnerType.STUDENT,
    ProcessStatus.PENDING_UPLOAD, false, false, 1, some 5⟩

-- ===== THEOREMS =====

/-- Unpacking a successful owner lookup. -/
theorem get_item_for_owner_ok {db : List DriveItem} {tid : Nat} {oid : Int}
    {i : DriveItem} (h : get_item_for_owner db tid oid = Except.ok i) :
    i ∈ db ∧ i.item_id = tid ∧ i.owner_id = oid := by
  unfold get_item_for_owner at h
  cases hf : db.find? (fun r => r.item_id == tid && r.owner_id == oid) with
  | none => rw [hf] at h; cases h
  | some r =>
    rw [hf] at h
    simp only [Except.ok.injEq] at h
    subst h
    have hm := List.mem_of_find?_eq_some hf
    have hp := List.find?_some hf
    simp only [Bool.and_eq_true, beq_iff_eq] at hp
    exact ⟨hm, hp.1, hp.2⟩

/-- After replacing every row with the target id by `updated`, looking the
target up for its owner returns `updated`, provided some row had that id. -/
theorem find?_commit_item_update {db : List DriveItem} {tid : Nat} {oid : Int}
    {updated : DriveItem} (hid : updated.item_id = tid)
    (hoid : updated.owner_id = oid) (hex : ∃ r ∈ db, r.item_id = tid) :
    (commit_item_update db tid updated).find?
      (fun r => r.item_id == tid && r.owner_id == oid) = some updated := by
  induction db with
  | nil => simp at hex
  | cons a as ih =>
    simp only [commit_item_update, List.map_cons]
    by_cases ha : a.item_id = tid
    · have h1 : (if (a.item_id == tid) = true then updated else a) = updated := by
        simp [ha]
      rw [h1]
      apply List.find?_cons_of_pos
      simp [hid, hoid]
    · have h1 : (if (a.item_id == tid) = true then updated else a) = a := by
        simp [ha]
      rw [h1]
      have hex₂ : ∃ r ∈ as, r.item_id = tid := by
        obtain ⟨r, hr, hrid⟩ := hex
        cases List.mem_cons.mp hr with
        | inl h => exact absurd (h ▸ hrid) ha
        | inr h => exact ⟨r, h, hrid⟩
      have htail := ih hex₂
      rw [List.find?_cons_of_neg]
      · simpa [commit_item_update] using htail
      · simp [ha]

theorem get_item_for_owner_commit {db : List DriveItem} {tid : Nat} {oid : Int}
    {updated : DriveItem} (hid : updated.item_id = tid)
    (hoid : updated.owner_id = oid) (hex : ∃ r ∈ db, r.item_id = tid) :
    get_item_for_owner (commit_item_update db tid updated) tid oid
      = Except.ok updated := by
  unfold get_item_for_owner
  rw [find?_commit_item_update hid hoid hex]

/-- C1, counterexample.  Starting from an empty table, creating
("alice", root, "notes") twice succeeds both times: at the root
(`parent_id` NULL) the unique constraint `uq_owner_parent_name` never
fires because SQL treats NULLs as distinct, and `create_drive_item` has
no explicit pre-check.  The resulting table holds two distinct items with
the same (owner, parent, name), contradicting the claim that the second
create fails with Conflict. -/
theorem c1_counterexample :
    create_drive_item [] c1_create c1_owner 10 0
        = Except.ok (c1_db1, c1_itemA)
      ∧ create_drive_item c1_db1 c1_create c1_owner 11 1
        = Except.ok (c1_db1 ++ [c1_itemB], c1_itemB)
      ∧ c1_itemA.owner_id = c1_itemB.owner_id
      ∧ c1_itemA.parent_id = c1_itemB.parent_id
      ∧ c1_itemA.name = c1_itemB.name
      ∧ c1_itemA.item_id ≠ c1_itemB.item_id := by
  decide

/-- C1 (amended): creating a second item with an occupied (owner, parent,
name) fails with 409 Conflict when the parent is a real folder (non-null
parent id); at the root (parent NULL) the database unique constraint
treats NULLs as distinct and `create_drive_item` has no explicit check,
so the duplicate create succeeds; renaming or moving an item into an
occupied (parent, name) — including the root, which the explicit
`check_for_name_conflict` query does cover — fails with 409 Conflict, and
since the error aborts the transaction before any write, both items keep
every field (an `Except.error` result leaves the table unchanged by
construction). -/
theorem c1_amended :
    (∀ (db : List DriveItem) (item : DriveItemCreate) (owner : User)
        (newId now : Nat) (r : DriveItem) (p : Nat),
      item.parent_id = some p → r ∈ db → r.owner_id = owner.user_id →
      r.parent_id = item.parent_id → r.name = item.name →
      create_drive_item db item owner newId now
        = Except.error (ApiErr.http 409))
  ∧ (∀ (db : List DriveItem) (item : DriveItemCreate) (owner : User)
        (newId now : Nat),
      item.parent_id = none →
      (create_drive_item db item owner newId now).isOk = true)
  ∧ (∀ (db : List DriveItem) (item_id : Nat) (owner_id : Int)
        (u : DriveItemUpdate) (now : Nat) (i₀ other : DriveItem),
      get_item_for_owner db item_id owner_id = Except.ok i₀ →
      ¬(u.name = none ∧ u.parent_id = none) →
      ¬(u.name.getD i₀.name = i₀.name
          ∧ u.parent_id.or i₀.parent_id = i₀.parent_id) →
      other ∈ db → other.item_id ≠ item_id → other.owner_id = owner_id →
      other.parent_id = u.parent_id.or i₀.parent_id →
      other.name = u.name.getD i₀.name →
      update_drive_item db item_id owner_id u now
        = Except.error (ApiErr.http 409)) := by
  refine ⟨?_, ?_, ?_⟩
  · intro db item owner newId now r p hp hr hro hrp hrn
    have hv : violates_uq_owner_parent_name db owner.user_id item.parent_id
        item.name = true := by
      rw [hp]
      simp only [violates_uq_owner_parent_name, List.any_eq_true]
      exact ⟨r, hr, by simp [hro, hrp.trans hp, hrn]⟩
    simp [create_drive_item, hv]
  · intro db item owner newId now hp
    simp [create_drive_item, violates_uq_owner_parent_name, hp, Except.isOk,
      Except.toBool]
  · intro db item_id owner_id u now i₀ other h0 hne hch hom hoid hoo hop hon
    have hcond : (u.name == none && u.parent_id == none) = false := by
      rcases hn : u.name with _ | n <;> rcases hpid : u.parent_id with _ | p
      · exact absurd ⟨hn, hpid⟩ hne
      all_goals simp
    have hcond₂ : ((u.name.getD i₀.name == i₀.name)
        && (u.parent_id.or i₀.parent_id == i₀.parent_id)) = false := by
      rcases h : (u.name.getD i₀.name == i₀.name) with _ | _
      · simp
      · rcases h₂ : (u.parent_id.or i₀.parent_id == i₀.parent_id) with _ | _
        · simp
        · exact absurd ⟨by simpa using h, by simpa using h₂⟩ hch
    have hmem : other ∈ (db.filter (fun r =>
        r.owner_id == owner_id && r.parent_id == u.parent_id.or i₀.parent_id
          && r.name == u.name.getD i₀.name)).filter
        (fun (r : DriveItem) => !(r.item_id == item_id)) := by
      simp [List.mem_filter, hom, hoo, hop, hon, hoid]
    have hconf : check_for_name_conflict db owner_id
        (u.parent_id.or i₀.parent_id) (u.name.getD i₀.name) (some item_id)
        = Except.error (ApiErr.http 409) := by
      simp only [check_for_name_conflict]
      cases hE : ((db.filter (fun r =>
          r.owner_id == owner_id && r.parent_id == u.parent_id.or i₀.parent_id
            && r.name == u.name.getD i₀.name)).filter
          (fun (r : DriveItem) => !(r.item_id == item_id))).isEmpty with
      | true =>
        rw [List.isEmpty_iff] at hE
        rw [hE] at hmem
        cases hmem
      | false => simp
    unfold update_drive_item
    rw [h0]
    simp only [hcond, Bool.false_eq_true, if_false, hcond₂, hconf]

/-- C1 witness: a concrete instance of each conjunct of `c1_amended` —
a duplicate create under folder 5 yields 409; a root create succeeds;
renaming "b" to "a" at the root while "a" exists yields 409. -/
theorem c1_amended_witness :
    create_drive_item
        [⟨10, "notes", ItemType.FILE, false, none, Permission.PRIVATE, 0, none,
          RepositoryType.PERSONAL, none, OwnerType.STUDENT,
          ProcessStatus.PENDING_UPLOAD, false, false, 1, some 5⟩]
        ⟨"notes", ItemType.FILE, some 5⟩ c1_owner 11 1
      = Except.error (ApiErr.http 409)
    ∧ (create_drive_item [] c1_create c1_owner 10 0).isOk = true
    ∧ update_drive_item
        [c1_itemA,
          ⟨12, "draft", ItemType.FILE, false, none, Permission.PRIVATE, 0, none,
            RepositoryType.PERSONAL, none, OwnerType.STUDENT,
            ProcessStatus.PENDING_UPLOAD, false, false, 1, none⟩]
        12 1 ⟨some "notes", none⟩ 3
      = Except.error (ApiErr.http 409) := by
  refine ⟨?_, ?_, ?_⟩
  · exact c1_amended.1
      [⟨10, "notes", ItemType.FILE, false, none, Permission.PRIVATE, 0, none,
        RepositoryType.PERSONAL, none, OwnerType.STUDENT,
        ProcessStatus.PENDING_UPLOAD, false, false, 1, some 5⟩]
      ⟨"notes", ItemType.FILE, some 5⟩ c1_owner 11 1
      ⟨10, "notes", ItemType.FILE, false, none, Permission.PRIVATE, 0, none,
        RepositoryType.PERSONAL, none, OwnerType.STUDENT,
        ProcessStatus.PENDING_UPLOAD, false, false, 1, some 5⟩ 5
      (by decide) (by decide) (by decide) (by decide) (by decide)
  · exact c1_amended.2.1 [] c1_create c1_owner 10 0 (by decide)
  · exact c1_amended.2.2
      [c1_itemA,
        ⟨12, "draft", ItemType.FILE, false, none, Permission.PRIVATE, 0, none,
          RepositoryType.PERSONAL, none, OwnerType.STUDENT,
          ProcessStatus.PENDING_UPLOAD, false, false, 1, none⟩]
      12 1 ⟨some "notes", none⟩ 3
      ⟨12, "draft", ItemType.FILE, false, none, Permission.PRIVATE, 0, none,
        RepositoryType.PERSONAL, none, OwnerType.STUDENT,
        ProcessStatus.PENDING_UPLOAD, false, false, 1, none⟩
      c1_itemA
      (by decide) (by decide) (by decide) (by decide) (by decide) (by decide)
      (by decide) (by decide)

/-- Replacing the rows with id `rid` does not affect a lookup for a
different id `k`. -/
theorem find?_commit_request_ne {reqs : List SigningRequest} {rid k : Nat}
    {updated : SigningRequest} (hu : updated.request_id = rid) (hk : k ≠ rid) :
    (commit_request_update reqs rid updated).find?
        (fun r => r.request_id == k)
      = reqs.find? (fun r => r.request_id == k) := by
  induction reqs with
  | nil => simp [commit_request_update]
  | cons a as ih =>
    simp only [commit_request_update, List.map_cons]
    by_cases ha : a.request_id = rid
    · have h1 : (if (a.request_id == rid) = true then updated else a)
          = updated := by simp [ha]
      rw [h1, List.find?_cons_of_neg, List.find?_cons_of_neg]
      · simpa [commit_request_update] using ih
      · simp [ha]
        exact fun h => absurd h.symm hk
      · simp [hu]
        exact fun h => absurd h.symm hk
    · have h1 : (if (a.request_id == rid) = true then updated else a) = a := by
        simp [ha]
      rw [h1]
      by_cases hak : a.request_id = k
      · rw [List.find?_cons_of_pos, List.find?_cons_of_pos] <;> simp [hak]
      · rw [List.find?_cons_of_neg, List.find?_cons_of_neg]
        · simpa [commit_request_update] using ih
        · simp [hak]
        · simp [hak]

/-- C2: a SigningRequest reaches APPROVED or REJECTED only from PENDING:
for an admin caller, approve and reject on a request whose status is not
PENDING (DRAFT, APPROVED or REJECTED) fail with 400 BadRequest, leaving
every table unchanged (an `Except.error` aborts the transaction);
APPROVED and REJECTED are terminal: no successful approve, reject or
submit call modifies a row whose status is APPROVED or REJECTED, and a
successful create only appends a fresh row. -/
theorem c2_signing_transitions :
    (∀ (reqs : List SigningRequest) (rid : Nat) (admin : User)
        (comment : Option String) (now : Nat) (r : SigningRequest),
      admin.role = UserRole.ADMIN →
      reqs.find? (fun x => x.request_id == rid) = some r →
      r.current_status ≠ SigningStatus.PENDING →
      approve_signing_request reqs rid admin comment now
          = Except.error (ApiErr.http 400)
      ∧ reject_signing_request reqs rid admin comment now
          = Except.error (ApiErr.http 400))
  ∧ (∀ (reqs : List SigningRequest) (rid : Nat) (caller : User)
        (comment : Option String) (now : Nat)
        (out : List SigningRequest × SigningRequest) (k : Nat)
        (r : SigningRequest),
      reqs.find? (fun x => x.request_id == k) = some r →
      (r.current_status = SigningStatus.APPROVED
        ∨ r.current_status = SigningStatus.REJECTED) →
      approve_signing_request reqs rid caller comment now = Except.ok out →
      out.1.find? (fun x => x.request_id == k) = some r)
  ∧ (∀ (reqs : List SigningRequest) (rid : Nat) (caller : User)
        (comment : Option String) (now : Nat)
        (out : List SigningRequest × SigningRequest) (k : Nat)
        (r : SigningRequest),
      reqs.find? (fun x => x.request_id == k) = some r →
      (r.current_status = SigningStatus.APPROVED
        ∨ r.current_status = SigningStatus.REJECTED) →
      reject_signing_request reqs rid caller comment now = Except.ok out →
      out.1.find? (fun x => x.request_id == k) = some r)
  ∧ (∀ (reqs : List SigningRequest) (rid : Nat) (caller : User) (now : Nat)
        (out : List SigningRequest × SigningRequest) (k : Nat)
        (r : SigningRequest),
      reqs.find? (fun x => x.request_id == k) = some r →
      (r.current_status = SigningStatus.APPROVED
        ∨ r.current_status = SigningStatus.REJECTED) →
      submit_signing_request reqs rid caller now = Except.ok out →
      out.1.find? (fun x => x.request_id == k) = some r)
  ∧ (∀ (reqs : List SigningRequest) (items : List DriveItem)
        (meta : List FileMetadata) (user : User) (fid : Nat)
        (app : Option Int) (nid now : Nat)
        (out : List SigningRequest × SigningRequest),
      create_signing_request reqs items meta user fid app nid now
          = Except.ok out →
      out.1 = reqs ++ [out.2]) := by
  refine ⟨?_, ?_, ?_, ?_, ?_⟩
  · intro reqs rid admin comment now r hadmin hfind hst
    have hb : (r.current_status == SigningStatus.PENDING) = false := by
      simp [hst]
    constructor
    · simp [approve_signing_request, hadmin, hfind, hb]
    · simp [reject_signing_request, hadmin, hfind, hb]
  · intro reqs rid caller comment now out k r hfind hterm hok
    unfold approve_signing_request at hok
    split at hok
    · cases hok
    · split at hok
      · cases hok
      · rename_i r₀ hf2
        split at hok
        · cases hok
        · rename_i hst₀
          simp only [Bool.not_eq_true', beq_eq_false_iff_ne, ne_eq,
            Decidable.not_not] at hst₀
          simp only [Except.ok.injEq] at hok
          subst hok
          have hrid : r₀.request_id = rid := by
            have := List.find?_some hf2
            simpa using this
          by_cases hk : k = rid
          · subst hk
            rw [hfind] at hf2
            simp only [Option.some.injEq] at hf2
            subst hf2
            cases hterm with
            | inl h => rw [h] at hst₀; cases hst₀
            | inr h => rw [h] at hst₀; cases hst₀
          · dsimp only
            refine Eq.trans (find?_commit_request_ne ?_ hk) hfind
            exact hrid
  · intro reqs rid caller comment now out k r hfind hterm hok
    unfold reject_signing_request at hok
    split at hok
    · cases hok
    · split at hok
      · cases hok
      · rename_i r₀ hf2
        split at hok
        · cases hok
        · rename_i hst₀
          simp only [Bool.not_eq_true', beq_eq_false_iff_ne, ne_eq,
            Decidable.not_not] at hst₀
          simp only [Except.ok.injEq] at hok
          subst hok
          have hrid : r₀.request_id = rid := by
            have := List.find?_some hf2
            simpa using this
          by_cases hk : k = rid
          · subst hk
            rw [hfind] at hf2
            simp only [Option.some.injEq] at hf2
            subst hf2
            cases hterm with
            | inl h => rw [h] at hst₀; cases hst₀
            | inr h => rw [h] at hst₀; cases hst₀
          · dsimp only
            refine Eq.trans (find?_commit_request_ne ?_ hk) hfind
            exact hrid
  · intro reqs rid caller now out k r hfind hterm hok
    unfold submit_signing_request at hok
    split at hok
    · cases hok
    · rename_i r₀ hf2
      split at hok
      · cases hok
      · split at hok
        · cases hok
        · rename_i hst₀
          simp only [Bool.not_eq_true', beq_eq_false_iff_ne, ne_eq,
            Decidable.not_not] at hst₀
          simp only [Except.ok.injEq] at hok
          subst hok
          have hrid : r₀.request_id = rid := by
            have := List.find?_some hf2
            simpa using this
          by_cases hk : k = rid
          · subst hk
            rw [hfind] at hf2
            simp only [Option.some.injEq] at hf2
            subst hf2
            cases hterm with
            | inl h => rw [h] at hst₀; cases hst₀
            | inr h => rw [h] at hst₀; cases hst₀
          · dsimp only
            refine Eq.trans (find?_commit_request_ne ?_ hk) hfind
            exact hrid
  · intro reqs items meta user fid app nid now out hok
    unfold create_signing_request at hok
    split at hok
    · cases hok
    · split at hok
      · cases hok
      · split at hok
        · cases hok
        · split at hok
          · cases hok
          · split at hok
            · cases hok
            · split at hok
              · cases hok
              · simp only [Except.ok.injEq] at hok
                subst hok
                rfl

/-- C2 witness: a table holding one APPROVED request (id 7) and one
PENDING request (id 5); approve/reject on the approved one return 400;
approving the pending one succeeds and leaves the approved row intact;
create appends. -/
theorem c2_signing_transitions_witness :
    approve_signing_request
        [⟨7, SigningStatus.APPROVED, none, none, 0, none, some 1, 1, 2, some 9⟩,
          ⟨5, SigningStatus.PENDING, none, none, 0, none, none, 3, 2, none⟩]
        7 ⟨9, "boss", "boss@example.com", UserRole.ADMIN⟩ none 4
      = Except.error (ApiErr.http 400)
    ∧ reject_signing_request
        [⟨7, SigningStatus.APPROVED, none, none, 0, none, some 1, 1, 2, some 9⟩,
          ⟨5, SigningStatus.PENDING, none, none, 0, none, none, 3, 2, none⟩]
        7 ⟨9, "boss", "boss@example.com", UserRole.ADMIN⟩ none 4
      = Except.error (ApiErr.http 400)
    ∧ (approve_signing_request
        [⟨7, SigningStatus.APPROVED, none, none, 0, none, some 1, 1, 2, some 9⟩,
          ⟨5, SigningStatus.PENDING, none, none, 0, none, none, 3, 2, none⟩]
        5 ⟨9, "boss", "boss@example.com", UserRole.ADMIN⟩ none 4
        = Except.ok
          ([⟨7, SigningStatus.APPROVED, none, none, 0, none, some 1, 1, 2, some 9⟩,
            ⟨5, SigningStatus.APPROVED, none, none, 0, some 4, some 4, 3, 2, some 9⟩],
            ⟨5, SigningStatus.APPROVED, none, none, 0, some 4, some 4, 3, 2, some 9⟩)
      ∧ [⟨(7 : Nat), SigningStatus.APPROVED, none, none, 0, none, some 1, 1, 2, some 9⟩,
          (⟨5, SigningStatus.APPROVED, none, none, 0, some 4, some 4, 3, 2, some 9⟩ :
            SigningRequest)].find?
          (fun x => x.request_id == 7)
        = some ⟨7, SigningStatus.APPROVED, none, none, 0, none, some 1, 1, 2, some 9⟩) := by
  refine ⟨?_, ?_, ?_, ?_⟩
  · exact (c2_signing_transitions.1
      [⟨7, SigningStatus.APPROVED, none, none, 0, none, some 1, 1, 2, some 9⟩,
        ⟨5, SigningStatus.PENDING, none, none, 0, none, none, 3, 2, none⟩]
      7 ⟨9, "boss", "boss@example.com", UserRole.ADMIN⟩ none 4
      ⟨7, SigningStatus.APPROVED, none, none, 0, none, some 1, 1, 2, some 9⟩
      (by decide) (by decide) (by decide)).1
  · exact (c2_signing_transitions.1
      [⟨7, SigningStatus.APPROVED, none, none, 0, none, some 1, 1, 2, some 9⟩,
        ⟨5, SigningStatus.PENDING, none, none, 0, none, none, 3, 2, none⟩]
      7 ⟨9, "boss", "boss@example.com", UserRole.ADMIN⟩ none 4
      ⟨7, SigningStatus.APPROVED, none, none, 0, none, some 1, 1, 2, some 9⟩
      (by decide) (by decide) (by decide)).2
  · decide
  · exact c2_signing_transitions.2.1
      [⟨7, SigningStatus.APPROVED, none, none, 0, none, some 1, 1, 2, some 9⟩,
        ⟨5, SigningStatus.PENDING, none, none, 0, none, none, 3, 2, none⟩]
      5 ⟨9, "boss", "boss@example.com", UserRole.ADMIN⟩ none 4
      ([⟨7, SigningStatus.APPROVED, none, none, 0, none, some 1, 1, 2, some 9⟩,
        ⟨5, SigningStatus.APPROVED, none, none, 0, some 4, some 4, 3, 2, some 9⟩],
        ⟨5, SigningStatus.APPROVED, none, none, 0, some 4, some 4, 3, 2, some 9⟩)
      7 ⟨7, SigningStatus.APPROVED, none, none, 0, none, some 1, 1, 2, some 9⟩
      (by decide) (by decide) (by decide)

/-- C3, counterexample.  With an open DRAFT request for file 1 on the
books, a second `create_signing_request` for file 1 by its owner (a
teacher) fails — but with `HTTPException(status_code=400)`, not with 409
Conflict as the claim states. -/
theorem c3_counterexample :
    create_signing_request [c3_req] [c3_file] [] c3_user 1 none 8 9
        = Except.error (ApiErr.http 400)
      ∧ ApiErr.http 400 ≠ ApiErr.http 409 := by
  decide

/-- C3 (amended): while an open (DRAFT or PENDING) SigningRequest for a
file exists, creating another request for that file fails — with a 400
BadRequest error (the source raises status 400 for this duplicate guard,
not 409 Conflict) — and, the error aborting the request before the
insert, no new request row is created. -/
theorem c3_amended (requests : List SigningRequest) (items : List DriveItem)
    (meta : List FileMetadata) (user : User) (fid : Nat) (app : Option Int)
    (nid now : Nat) (item : DriveItem)
    (h1 : (user.role == UserRole.TEACHER || user.role == UserRole.ADMIN) = true)
    (h2 : items.find? (fun r => r.item_id == fid) = some item)
    (h3 : (!(user.role == UserRole.ADMIN)
        && !(item.owner_id == user.user_id)) = false)
    (h4 : item.item_type = ItemType.FILE)
    (h5 : (meta.any (fun m => m.item_id == fid)
        && !(item.name.toLower.endsWith ".pdf")) = false)
    (h6 : requests.any (fun r => r.drive_item_id == fid
        && (r.current_status == SigningStatus.DRAFT
            || r.current_status == SigningStatus.PENDING)) = true) :
    create_signing_request requests items meta user fid app nid now
      = Except.error (ApiErr.http 400) := by
  simp [create_signing_request, h1, h2, h3, h4, h5, h6]

/-- C3 witness: `c3_amended` applied at the concrete counterexample
state. -/
theorem c3_amended_witness :
    create_signing_request [c3_req] [c3_file] [] c3_user 1 none 8 9
      = Except.error (ApiErr.http 400) :=
  c3_amended [c3_req] [c3_file] [] c3_user 1 none 8 9 c3_file
    (by decide) (by decide) (by decide) (by decide) (by decide) (by decide)

/-- C4: the code contains no `is_locked` guard on any user deletion path.
Evaluating the embedded code on a locked, system-generated folder: its
owner trashes it successfully, and then permanently deletes it from the
trash successfully — the item does not remain in the store, contradicting
the claim (and the source's own description of `is_locked` as "Lock from
user deletion"). -/
theorem c4_locked_deletion_not_guarded :
    c4_item.is_locked = true
      ∧ trash_item [c4_item] 1 1 5 = Except.ok ([c4_trashed], c4_trashed)
      ∧ c4_trashed.is_locked = true
      ∧ delete_item_permanently [c4_trashed] 1 1 = Except.ok [] := by
  decide

/-- C5, counterexample.  A successful personal-drive upload
(`create_file_with_metadata`) leaves the new FILE item with
process_status PENDING_UPLOAD — the constructor never sets the field, so
the column default applies — not READY as the claim states. -/
theorem c5_counterexample :
    create_file_with_metadata [] [] c5_owner "notes.pdf" none
        "application/pdf" 4 "1/10/notes.pdf" 10 0
      = Except.ok ([c5_item], [c5_meta], c5_item)
    ∧ c5_item.process_status = ProcessStatus.PENDING_UPLOAD
    ∧ ProcessStatus.PENDING_UPLOAD ≠ ProcessStatus.READY := by
  decide

/-- C5 (amended): every FILE item created by a successful personal-drive
upload has process_status PENDING_UPLOAD immediately after the upload
commits (the column default; `create_file_with_metadata` does not set the
field, and no scanner exists to advance it), and listing the parent
folder returns that file (with its stored process_status
PENDING_UPLOAD). -/
theorem c5_amended (db : List DriveItem) (meta : List FileMetadata)
    (owner : User) (filename : String) (parent_id : Option Nat)
    (mime_type : String) (size : Nat) (storage_path : String)
    (newId now : Nat) (db2 : List DriveItem) (meta2 : List FileMetadata)
    (item : DriveItem)
    (hok : create_file_with_metadata db meta owner filename parent_id
        mime_type size storage_path newId now
      = Except.ok (db2, meta2, item)) :
    item.process_status = ProcessStatus.PENDING_UPLOAD
    ∧ item ∈ get_user_items_in_folder db2 owner.user_id parent_id := by
  unfold create_file_with_metadata at hok
  split at hok
  · cases hok
  · simp only [Except.ok.injEq, Prod.mk.injEq] at hok
    obtain ⟨hdb, _hmeta, hitem⟩ := hok
    subst hdb
    subst hitem
    refine ⟨rfl, ?_⟩
    unfold get_user_items_in_folder
    rw [List.mem_mergeSort, List.mem_filter]
    constructor
    · simp
    · simp

/-- C5 witness: `c5_amended` applied at the concrete upload. -/
theorem c5_amended_witness :
    c5_item.process_status = ProcessStatus.PENDING_UPLOAD
    ∧ c5_item ∈ get_user_items_in_folder [c5_item] c5_owner.user_id none :=
  c5_amended [] [] c5_owner "notes.pdf" none "application/pdf" 4
    "1/10/notes.pdf" 10 0 [c5_item] [c5_meta] c5_item (by decide)

/-- C6: evaluating `check_department_permission` on each caller class.
ADMIN is allowed; STUDENT gets 403; a TEACHER with no `lecturer_info`
gets 400.  But a TEACHER whose assertion does carry `lecturer_info` —
the only case in which the claimed department comparison could happen —
hits the `user_data.lecturer_info.department_id` attribute access on a
schema with no such field and raises AttributeError (a 500), for the
matching and the mismatching department alike, so the claimed
Forbidden-on-mismatch / allow-on-match behaviour is unreachable. -/
theorem c6_department_permission_eval :
    check_department_permission c6_admin c6_data_none 5 true
        = Except.ok true
    ∧ check_department_permission c6_student c6_data_with 5 false
        = Except.error (ApiErr.http 403)
    ∧ check_department_permission c6_teacher c6_data_none 5 true
        = Except.error (ApiErr.http 400)
    ∧ check_department_permission c6_teacher c6_data_with 5 true
        = Except.error ApiErr.attributeError
    ∧ check_department_permission c6_teacher c6_data_with 7 true
        = Except.error ApiErr.attributeError := by
  decide

/-- C7: sharing an item with its owner fails (400); sharing it again with
a grantee who already holds a share fails (409 Conflict) and — the error
aborting the transaction — adds no SharePermission row; a successful
share appends exactly one share row for the item and leaves the item's
visibility SHARED; and an item fresh out of `create_drive_item` has
visibility PRIVATE, so the flip to SHARED happens exactly at the first
successful share. -/
theorem c7_sharing :
    (∀ (users : List User) (db : List DriveItem)
        (shares : List SharePermission) (item_id : Nat) (oid : Int)
        (sd : ShareCreate) (sid now : Nat) (i₀ : DriveItem) (u : User),
      get_item_for_owner db item_id oid = Except.ok i₀ →
      get_user_by_username users sd.username = some u →
      u.user_id = oid →
      share_item users db shares item_id oid sd sid now
        = Except.error (ApiErr.http 400))
  ∧ (∀ (users : List User) (db : List DriveItem)
        (shares : List SharePermission) (item_id : Nat) (oid : Int)
        (sd : ShareCreate) (sid now : Nat) (i₀ : DriveItem) (u : User),
      get_item_for_owner db item_id oid = Except.ok i₀ →
      get_user_by_username users sd.username = some u →
      u.user_id ≠ oid →
      shares.any (fun s => s.item_id == item_id
          && s.shared_with_user_id == u.user_id) = true →
      share_item users db shares item_id oid sd sid now
        = Except.error (ApiErr.http 409))
  ∧ (∀ (users : List User) (db : List DriveItem)
        (shares : List SharePermission) (item_id : Nat) (oid : Int)
        (sd : ShareCreate) (sid now : Nat) (i₀ : DriveItem)
        (out : List DriveItem × List SharePermission × SharePermission),
      get_item_for_owner db item_id oid = Except.ok i₀ →
      share_item users db shares item_id oid sd sid now = Except.ok out →
      out.2.1 = shares ++ [out.2.2]
      ∧ out.2.2.item_id = item_id
      ∧ get_item_for_owner out.1 item_id oid
          = Except.ok { i₀ with
              permission := Permission.SHARED, updated_at := some now })
  ∧ (∀ (db : List DriveItem) (item : DriveItemCreate) (owner : User)
        (nid now : Nat) (out : List DriveItem × DriveItem),
      create_drive_item db item owner nid now = Except.ok out →
      out.2.permission = Permission.PRIVATE) := by
  refine ⟨?_, ?_, ?_, ?_⟩
  · intro users db shares item_id oid sd sid now i₀ u h0 hu huid
    simp [share_item, h0, hu, huid]
  · intro users db shares item_id oid sd sid now i₀ u h0 hu huid hdup
    have hb : (u.user_id == oid) = false := by simp [huid]
    simp [share_item, h0, hu, hb, hdup]
  · intro users db shares item_id oid sd sid now i₀ out h0 hok
    obtain ⟨hmem, hid, hoid⟩ := get_item_for_owner_ok h0
    unfold share_item at hok
    rw [h0] at hok
    simp only at hok
    split at hok
    · cases hok
    · rename_i u hu
      split at hok
      · cases hok
      · split at hok
        · cases hok
        · simp only [Except.ok.injEq] at hok
          subst hok
          refine ⟨rfl, rfl, ?_⟩
          exact get_item_for_owner_commit (by simpa using hid)
            (by simpa using hoid) ⟨i₀, hmem, hid⟩
  · intro db item owner nid now out hok
    unfold create_drive_item at hok
    split at hok
    · cases hok
    · simp only [Except.ok.injEq] at hok
      subst hok
      rfl

/-- C7 witness: alice shares her item with herself (400), with bob twice
(the second attempt 409), and successfully once (share row appended, item
visibility SHARED); a freshly created item is PRIVATE. -/
theorem c7_sharing_witness :
    share_item c7_users [c7_item] [] 1 1 ⟨"alice"⟩ 5 3
        = Except.error (ApiErr.http 400)
    ∧ share_item c7_users [c7_item_shared] [c7_share] 1 1 ⟨"bob"⟩ 6 4
        = Except.error (ApiErr.http 409)
    ∧ (([c7_share] : List SharePermission) = [] ++ [c7_share]
        ∧ c7_share.item_id = 1
        ∧ get_item_for_owner [c7_item_shared] 1 1
            = Except.ok { c7_item with
                permission := Permission.SHARED, updated_at := some 3 })
    ∧ (⟨9, "x", ItemType.FILE, false, none, Permission.PRIVATE, 0, none,
        RepositoryType.PERSONAL, none, OwnerType.STUDENT,
        ProcessStatus.PENDING_UPLOAD, false, false, 1, none⟩ :
          DriveItem).permission = Permission.PRIVATE := by
  refine ⟨?_, ?_, ?_, ?_⟩
  · exact c7_sharing.1 c7_users [c7_item] [] 1 1 ⟨"alice"⟩ 5 3 c7_item
      c7_alice (by decide) (by decide) (by decide)
  · exact c7_sharing.2.1 c7_users [c7_item_shared] [c7_share] 1 1 ⟨"bob"⟩ 6 4
      c7_item_shared c7_bob (by decide) (by decide) (by decide) (by decide)
  · exact c7_sharing.2.2.1 c7_users [c7_item] [] 1 1 ⟨"bob"⟩ 5 3 c7_item
      ([c7_item_shared], [c7_share], c7_share) (by decide) (by decide)
  · exact c7_sharing.2.2.2 [] ⟨"x", ItemType.FILE, none⟩ c7_alice 9 0
      ([⟨9, "x", ItemType.FILE, false, none, Permission.PRIVATE, 0, none,
          RepositoryType.PERSONAL, none, OwnerType.STUDENT,
          ProcessStatus.PENDING_UPLOAD, false, false, 1, none⟩],
        ⟨9, "x", ItemType.FILE, false, none, Permission.PRIVATE, 0, none,
          RepositoryType.PERSONAL, none, OwnerType.STUDENT,
          ProcessStatus.PENDING_UPLOAD, false, false, 1, none⟩)
      (by decide)

/-- C8, counterexample.  Trashing a non-trashed item at time 1 and
restoring it at time 2 changes `updated_at` (NULL before, 2 after): every
UPDATE on the row refreshes the column through its
`onupdate=func.now()` default, so the round trip is not a no-op on all
fields other than is_trashed and trashed_at. -/
theorem c8_counterexample :
    trash_item [c8_item] 1 1 1 = Except.ok ([c8_t], c8_t)
    ∧ restore_item [c8_t] 1 1 2 = Except.ok ([c8_r], c8_r)
    ∧ c8_r.updated_at ≠ c8_item.updated_at := by
  decide

/-- C8 (amended): trashing a non-trashed item and then restoring it gives
back the item with every field equal to its original value except
trashed_at (reset to NULL) and updated_at (refreshed to the restore time
by the column's `onupdate`) — is_trashed is back to false, its original
value; trashing an already-trashed item is rejected with 400, and
restoring a non-trashed item is rejected with 400, in both cases leaving
the item unchanged (the error aborts the transaction before any
write). -/
theorem c8_amended :
    (∀ (db : List DriveItem) (tid : Nat) (oid : Int) (t1 t2 : Nat)
        (i₀ : DriveItem),
      get_item_for_owner db tid oid = Except.ok i₀ →
      i₀.is_trashed = false →
      trash_item db tid oid t1
          = Except.ok (commit_item_update db tid
              { i₀ with
                is_trashed := true
                trashed_at := some t1
                updated_at := some t1 },
            { i₀ with
              is_trashed := true
              trashed_at := some t1
              updated_at := some t1 })
        ∧ restore_item (commit_item_update db tid
              { i₀ with
                is_trashed := true
                trashed_at := some t1
                updated_at := some t1 }) tid oid t2
          = Except.ok (commit_item_update (commit_item_update db tid
                { i₀ with
                  is_trashed := true
                  trashed_at := some t1
                  updated_at := some t1 }) tid
              { i₀ with
                is_trashed := false
                trashed_at := none
                updated_at := some t2 },
            { i₀ with
              is_trashed := false
              trashed_at := none
              updated_at := some t2 })
        ∧ ({ i₀ with
              is_trashed := false
              trashed_at := none
              updated_at := some t2 } : DriveItem)
            = { i₀ with trashed_at := none, updated_at := some t2 })
  ∧ (∀ (db : List DriveItem) (tid : Nat) (oid : Int) (now : Nat)
        (i₀ : DriveItem),
      get_item_for_owner db tid oid = Except.ok i₀ →
      i₀.is_trashed = true →
      trash_item db tid oid now = Except.error (ApiErr.http 400))
  ∧ (∀ (db : List DriveItem) (tid : Nat) (oid : Int) (now : Nat)
        (i₀ : DriveItem),
      get_item_for_owner db tid oid = Except.ok i₀ →
      i₀.is_trashed = false →
      restore_item db tid oid now = Except.error (ApiErr.http 400)) := by
  refine ⟨?_, ?_, ?_⟩
  · intro db tid oid t1 t2 i₀ h0 htr
    obtain ⟨hmem, hid, hoid⟩ := get_item_for_owner_ok h0
    have h1 : get_item_for_owner (commit_item_update db tid
        { i₀ with
          is_trashed := true
          trashed_at := some t1
          updated_at := some t1 }) tid oid
        = Except.ok { i₀ with
            is_trashed := true
            trashed_at := some t1
            updated_at := some t1 } :=
      get_item_for_owner_commit (by simpa using hid) (by simpa using hoid)
        ⟨i₀, hmem, hid⟩
    refine ⟨?_, ?_, ?_⟩
    · simp [trash_item, h0, htr]
    · simp [restore_item, h1]
    · cases i₀
      simp only at htr
      simp [htr]
  · intro db tid oid now i₀ h0 htr
    simp [trash_item, h0, htr]
  · intro db tid oid now i₀ h0 htr
    simp [restore_item, h0, htr]

/-- C8 witness: `c8_amended` applied to a singleton table — the round
trip on `c8_item`, trashing the already-trashed `c8_t`, and restoring the
non-trashed `c8_item`. -/
theorem c8_amended_witness :
    (trash_item [c8_item] 1 1 1
        = Except.ok (commit_item_update [c8_item] 1
            { c8_item with
              is_trashed := true
              trashed_at := some 1
              updated_at := some 1 },
          { c8_item with
            is_trashed := true
            trashed_at := some 1
            updated_at := some 1 })
      ∧ restore_item (commit_item_update [c8_item] 1
            { c8_item with
              is_trashed := true
              trashed_at := some 1
              updated_at := some 1 }) 1 1 2
        = Except.ok (commit_item_update (commit_item_update [c8_item] 1
              { c8_item with
                is_trashed := true
                trashed_at := some 1
                updated_at := some 1 }) 1
            { c8_item with
              is_trashed := false
              trashed_at := none
              updated_at := some 2 },
          { c8_item with
            is_trashed := false
            trashed_at := none
            updated_at := some 2 })
      ∧ ({ c8_item with
            is_trashed := false
            trashed_at := none
            updated_at := some 2 } : DriveItem)
          = { c8_item with trashed_at := none, updated_at := some 2 })
    ∧ trash_item [c8_t] 1 1 9 = Except.error (ApiErr.http 400)
    ∧ restore_item [c8_item] 1 1 9 = Except.error (ApiErr.http 400) :=
  ⟨c8_amended.1 [c8_item] 1 1 1 2 c8_item (by decide) rfl,
    c8_amended.2.1 [c8_t] 1 1 9 c8_t (by decide) rfl,
    c8_amended.2.2 [c8_item] 1 1 9 c8_item (by decide) rfl⟩

/-- C9: the rename/move operation has no cycle guard.  In the concrete
store where folder D (id 2) is a direct child of folder F (id 1) — so D
is a strict descendant of F and no sibling of F's name exists under D —
the request to set F's parent to D succeeds and commits, after which F is
an ancestor of itself (the parent chain from F runs F → D → F). -/
theorem c9_move_into_descendant_succeeds :
    is_ancestor_of c9_db 1 2 = true
    ∧ is_ancestor_of c9_db 1 1 = false
    ∧ update_drive_item c9_db 1 1 ⟨none, some 2⟩ 5
        = Except.ok (c9_db2, c9_F2)
    ∧ is_ancestor_of c9_db2 1 1 = true := by
  decide

/-- C10: in `update_drive_item` an absent/null `parent_id` always means
"parent unchanged": a request with both fields null returns the item and
the table entirely unchanged, and no single update request can turn a
non-null parent_id into NULL — the result of any successful update on an
item that sits inside a folder still has a non-null parent. -/
theorem c10_null_parent_unchanged :
    (∀ (db : List DriveItem) (tid : Nat) (oid : Int) (now : Nat)
        (i₀ : DriveItem),
      get_item_for_owner db tid oid = Except.ok i₀ →
      update_drive_item db tid oid ⟨none, none⟩ now = Except.ok (db, i₀))
  ∧ (∀ (db : List DriveItem) (tid : Nat) (oid : Int) (u : DriveItemUpdate)
        (now : Nat) (i₀ : DriveItem) (p : Nat)
        (out : List DriveItem × DriveItem),
      get_item_for_owner db tid oid = Except.ok i₀ →
      i₀.parent_id = some p →
      update_drive_item db tid oid u now = Except.ok out →
      out.2.parent_id ≠ none) := by
  constructor
  · intro db tid oid now i₀ h0
    simp [update_drive_item, h0]
  · intro db tid oid u now i₀ p out h0 hp hok
    unfold update_drive_item at hok
    rw [h0] at hok
    simp only at hok
    split at hok
    · simp only [Except.ok.injEq] at hok
      subst hok
      simp [hp]
    · split at hok
      · simp only [Except.ok.injEq] at hok
        subst hok
        simp [hp]
      · split at hok
        · cases hok
        · simp only [Except.ok.injEq] at hok
          subst hok
          cases hup : u.parent_id with
          | none => simp [Option.or, hup, hp]
          | some q => simp [Option.or, hup]

/-- C10 witness: updating `c10_item` (inside folder 5) with both fields
null returns it unchanged, and renaming it (a successful update) leaves
its parent non-null. -/
theorem c10_null_parent_unchanged_witness :
    update_drive_item [c10_item] 1 1 ⟨none, none⟩ 9
        = Except.ok ([c10_item], c10_item)
    ∧ (⟨1, "memo2", ItemType.FILE, false, none, Permission.PRIVATE, 0,
        some 9, RepositoryType.PERSONAL, none, OwnerType.STUDENT,
        ProcessStatus.PENDING_UPLOAD, false, false, 1, some 5⟩ :
          DriveItem).parent_id ≠ none := by
  constructor
  · exact c10_null_parent_unchanged.1 [c10_item] 1 1 9 c10_item (by decide)
  · exact c10_null_parent_unchanged.2 [c10_item] 1 1 ⟨some "memo2", none⟩ 9
      c10_item 5
      ([⟨1, "memo2", ItemType.FILE, false, none, Permission.PRIVATE, 0,
          some 9, RepositoryType.PERSONAL, none, OwnerType.STUDENT,
          ProcessStatus.PENDING_UPLOAD, false, false, 1, some 5⟩],
        ⟨1, "memo2", ItemType.FILE, false, none, Permission.PRIVATE, 0,
          some 9, RepositoryType.PERSONAL, none, OwnerType.STUDENT,
          ProcessStatus.PENDING_UPLOAD, false, false, 1, some 5⟩)
      (by decide) (by decide) (by decide)

end HpcDrive
